import Mathlib

/-!
Verification development for the FileMetadataStore coordinator
(src/store/fileMetadataStore.ts). The store is embedded shallowly: the
observable and internal fields become a Lean structure, each method becomes a
pure state-transformer, and the responses of the external metadata database
(an out-of-scope collaborator reached through a narrow async interface) are
passed in as explicit parameters. Asynchronous suspension points are modelled
by threading the state through the phases of each method in program order.
-/

/-- Modelled from the spec: an opaque file-metadata record. The concrete type
lives in the external lib db module, which this core never inspects; records
are whatever the external database returns. -/
structure IpfsFileMetadata where
  cid : String
deriving DecidableEq

/-- Modelled from the spec: the sync-state pair delivered by the external
database, getSyncState and the startSync progress callback both deliver
integer counts of records. -/
structure SyncState where
  numSynced : Nat
  total : Nat
deriving DecidableEq

/-- The value domain of the JavaScript number field that can hold the
unbounded sentinel: a natural count, or Infinity. Equality on this domain is
decidable and matches the strict JavaScript comparison on these values, since
Infinity equals only itself and finite counts compare as integers. -/
inductive JsNum where
  | num (n : Nat)
  | inf
deriving DecidableEq

/-- State of the FileMetadataStore class: the observable fields searchResults,
loadingSearchResults, total, inodesSynced, totalInodesToSync, syncError, the
construction parameter resultsPerPage, and the private memoized db handle,
identified here by a numeric instance id, none while not yet constructed.
The field inodesSynced has type Nat because the code assigns it only its
initializer 0, the integer counts delivered by the external contract, and 0
again on clear; the Infinity sentinel is never assigned to it. The field
totalInodesToSync additionally holds the sentinel, its initializer. -/
structure FileMetadataStore where
  searchResults : List IpfsFileMetadata
  loadingSearchResults : Bool
  total : Int
  resultsPerPage : Int
  inodesSynced : Nat
  totalInodesToSync : JsNum
  syncError : Option String
  db : Option Nat
deriving DecidableEq

/-- The state right after the constructor ran with the given resultsPerPage:
the field initializers of the class. -/
def FileMetadataStore.initial (resultsPerPage : Int) : FileMetadataStore :=
  { searchResults := []
    loadingSearchResults := false
    total := 0
    resultsPerPage := resultsPerPage
    inodesSynced := 0
    totalInodesToSync := JsNum.inf
    syncError := none
    db := none }

/-- Argument record of the search method. -/
structure SearchParams where
  query : String
  page : Int
deriving DecidableEq

/-- Argument record of the getLatest method. -/
structure GetLatestParams where
  page : Int
deriving DecidableEq

/-- Argument record of the updateSyncProgress action; both counts come from a
SyncState delivered by the external contract, hence integers. -/
structure UpdateSyncAction where
  inodesSynced : Nat
  totalInodes : Nat
deriving DecidableEq

/-- Argument record of the updateSearchResults action. -/
structure UpdateSearchResultsAction where
  data : List IpfsFileMetadata
  total : Int
deriving DecidableEq

/-- Modelled from the spec: the response shape of the external search and
latest calls, a data page and the total number of matches. -/
structure QueryResponse where
  data : List IpfsFileMetadata
  total : Int
deriving DecidableEq

/-- A request issued to the external database, recorded so that theorems can
state exactly which query, limit and offset were sent through. -/
inductive DbRequest where
  | search (query : String) (limit offset : Int)
  | latest (limit offset : Int)
deriving DecidableEq

/-- getDb: memoized construction of the database handle. If the private db
field is unset, construct a new handle, here identified by the supplied fresh
instance id, store it, and return it; otherwise return the stored handle. The
check and the assignment run with no intervening await, so on the single
threaded event loop the step is atomic. -/
def FileMetadataStore.getDb (fresh : Nat) (s : FileMetadataStore) :
    Nat × FileMetadataStore :=
  match s.db with
  | some h => (h, s)
  | none => (fresh, { s with db := some fresh })

/-- isDbSynced: the computed predicate, a strict equality comparison of
inodesSynced against totalInodesToSync in the JavaScript number domain. -/
def FileMetadataStore.isDbSynced (s : FileMetadataStore) : Bool :=
  decide (JsNum.num s.inodesSynced = s.totalInodesToSync)

/-- updateSyncProgress action: overwrite both sync counters with the values
from the event. No bounds check, no clamping, no error reporting. -/
def FileMetadataStore.updateSyncProgress (s : FileMetadataStore)
    (params : UpdateSyncAction) : FileMetadataStore :=
  { s with inodesSynced := params.inodesSynced
           totalInodesToSync := JsNum.num params.totalInodes }

/-- updateSearchResults action: replace the result set and total and drop the
loading flag, in one atomic action. -/
def FileMetadataStore.updateSearchResults (s : FileMetadataStore)
    (params : UpdateSearchResultsAction) : FileMetadataStore :=
  { s with searchResults := params.data
           total := params.total
           loadingSearchResults := false }

/-- clearResults action: empty the result list and reset the sync counters to
their initial values. The total field is not touched. -/
def FileMetadataStore.clearResults (s : FileMetadataStore) : FileMetadataStore :=
  { s with searchResults := []
           totalInodesToSync := JsNum.inf
           inodesSynced := 0 }

/-- init: run getDb, then await getSyncState. If that read rejects, the catch
handler of the initiator sets syncError to the fixed message and nothing else
runs. Otherwise publish the read state through updateSyncProgress and await
the startSync registration; if that rejects the same catch handler fires.
The two external outcomes are passed in explicitly. -/
def FileMetadataStore.init (fresh : Nat) (s : FileMetadataStore)
    (getSyncStateResult : Except String SyncState)
    (startSyncResult : Except String Unit) : FileMetadataStore :=
  let s1 := (FileMetadataStore.getDb fresh s).2
  match getSyncStateResult with
  | Except.error _ => { s1 with syncError := some "Incorrect network!" }
  | Except.ok st =>
      let s2 := FileMetadataStore.updateSyncProgress s1
        { inodesSynced := st.numSynced, totalInodes := st.total }
      match startSyncResult with
      | Except.error _ => { s2 with syncError := some "Incorrect network!" }
      | Except.ok _ => s2

/-- syncCallback: the progress callback registered by init. A non-null error
argument is only logged with console.warn and changes no state. A null
syncState argument raises inside the callback. Otherwise the delivered state
is published through updateSyncProgress, whether or not an error came along. -/
def FileMetadataStore.syncCallback (s : FileMetadataStore)
    (err : Option String) (syncState : Option SyncState) :
    Except String FileMetadataStore :=
  match syncState with
  | none => Except.error "Result must exist"
  | some st =>
      Except.ok (FileMetadataStore.updateSyncProgress s
        { inodesSynced := st.numSynced, totalInodes := st.total })

/-- search: run getDb, take limit from resultsPerPage and offset from
resultsPerPage times page minus one with no validation of page, raise the
loading flag, and issue the external search call. On a successful response
publish it through updateSearchResults; on rejection the method rejects with
the state left as it was at the await, loading flag still raised. The issued
request is returned alongside the resulting state. -/
def FileMetadataStore.search (fresh : Nat) (s : FileMetadataStore)
    (params : SearchParams) (resp : Except String QueryResponse) :
    DbRequest × FileMetadataStore :=
  let s1 := (FileMetadataStore.getDb fresh s).2
  let limit := s1.resultsPerPage
  let offset := s1.resultsPerPage * (params.page - 1)
  let s2 := { s1 with loadingSearchResults := true }
  let req := DbRequest.search params.query limit offset
  match resp with
  | Except.error _ => (req, s2)
  | Except.ok r =>
      (req, FileMetadataStore.updateSearchResults s2
        { data := r.data, total := r.total })

/-- getLatest: identical shape to search, issuing the external latest call. -/
def FileMetadataStore.getLatest (fresh : Nat) (s : FileMetadataStore)
    (params : GetLatestParams) (resp : Except String QueryResponse) :
    DbRequest × FileMetadataStore :=
  let s1 := (FileMetadataStore.getDb fresh s).2
  let limit := s1.resultsPerPage
  let offset := s1.resultsPerPage * (params.page - 1)
  let s2 := { s1 with loadingSearchResults := true }
  let req := DbRequest.latest limit offset
  match resp with
  | Except.error _ => (req, s2)
  | Except.ok r =>
      (req, FileMetadataStore.updateSearchResults s2
        { data := r.data, total := r.total })

/-- clear, successful path: run getDb, await the external clearData call, and
on its success run the clearResults action. -/
def FileMetadataStore.clear (fresh : Nat) (s : FileMetadataStore) :
    FileMetadataStore :=
  FileMetadataStore.clearResults (FileMetadataStore.getDb fresh s).2

/-- Run a sequence of getDb steps, each an atomic event-loop reaction, with a
supply of fresh instance ids. Returns the handle each call returned, the
number of handle constructions performed, and the final state. Every public
method, init, search, getLatest and clear, reaches the database through such
a step, so any interleaving of their handle acquisitions is such a sequence. -/
def runGetDbs : FileMetadataStore → List Nat → List Nat × Nat × FileMetadataStore
  | s, [] => ([], 0, s)
  | s, fresh :: rest =>
      let step := FileMetadataStore.getDb fresh s
      let tail := runGetDbs step.2 rest
      (step.1 :: tail.1, (if s.db = none then 1 else 0) + tail.2.1, tail.2.2)

/-- A concrete store state holding a prior nonzero total and nonempty results,
as left behind by a completed query, used to evaluate clear concretely. -/
def storeWithTotal57 : FileMetadataStore :=
  { FileMetadataStore.initial 20 with
      total := 57
      searchResults := [{ cid := "r1" }]
      inodesSynced := 5
      totalInodesToSync := JsNum.num 100 }

/-- Helper: once the db handle is memoized, every further getDb step returns
that handle, performs no construction, and leaves the state unchanged. -/
theorem runGetDbs_of_db_some (h : Nat) (fs : List Nat) :
    ∀ s : FileMetadataStore, s.db = some h →
      runGetDbs s fs = (List.replicate fs.length h, 0, s) := by
  induction fs with
  | nil =>
      intro s hdb
      simp [runGetDbs]
  | cons f rest ih =>
      intro s hdb
      have hstep : FileMetadataStore.getDb f s = (h, s) := by
        simp [FileMetadataStore.getDb, hdb]
      simp [runGetDbs, hstep, hdb, ih s hdb, List.replicate_succ]

/-- C1: for every state of the store, isDbSynced is true exactly when
inodesSynced equals totalInodesToSync and totalInodesToSync does not hold the
Infinity sentinel; in particular the predicate is false while the sentinel is
held, because inodesSynced always holds a finite count. -/
theorem isDbSynced_iff_synced_and_not_sentinel (s : FileMetadataStore) :
    s.isDbSynced = true ↔
      (JsNum.num s.inodesSynced = s.totalInodesToSync ∧
        s.totalInodesToSync ≠ JsNum.inf) := by
  cases h : s.totalInodesToSync with
  | num m => simp [FileMetadataStore.isDbSynced, h]
  | inf => simp [FileMetadataStore.isDbSynced, h]

/-- C1 witness: the iff evaluated at the freshly constructed store, where the
sentinel is held and the predicate is false. -/
theorem isDbSynced_iff_witness :
    (FileMetadataStore.initial 20).isDbSynced = true ↔
      (JsNum.num (FileMetadataStore.initial 20).inodesSynced
          = (FileMetadataStore.initial 20).totalInodesToSync ∧
        (FileMetadataStore.initial 20).totalInodesToSync ≠ JsNum.inf) :=
  isDbSynced_iff_synced_and_not_sentinel (FileMetadataStore.initial 20)

/-- C2 fails on the code: with resultsPerPage 20, a search with page 0 issues
the external search call with offset -20 instead of rejecting with a
precondition error before calling through, and getLatest with page 0 issues
the external latest call with offset -20 as well. -/
theorem page_zero_issues_negative_offset :
    (FileMetadataStore.search 0 (FileMetadataStore.initial 20)
        { query := "x", page := 0 } (Except.ok { data := [], total := 0 })).1
      = DbRequest.search "x" 20 (-20)
  ∧ (FileMetadataStore.getLatest 0 (FileMetadataStore.initial 20)
        { page := 0 } (Except.ok { data := [], total := 0 })).1
      = DbRequest.latest 20 (-20) := by
  constructor <;> decide

/-- C3: in every run of init whose getSyncState read rejects, syncError
becomes the fixed user-safe message, independent of the underlying error
message, and the two sync counters keep their prior values. -/
theorem init_getSyncState_rejects (fresh : Nat) (s : FileMetadataStore)
    (msg : String) (r : Except String Unit) :
    (FileMetadataStore.init fresh s (Except.error msg) r).syncError
        = some "Incorrect network!"
  ∧ (FileMetadataStore.init fresh s (Except.error msg) r).inodesSynced
        = s.inodesSynced
  ∧ (FileMetadataStore.init fresh s (Except.error msg) r).totalInodesToSync
        = s.totalInodesToSync := by
  cases hdb : s.db <;>
    simp [FileMetadataStore.init, FileMetadataStore.getDb, hdb]

/-- C4 fails on the code: invoking the progress callback with a non-null
error and a non-null state applies the progress update and leaves syncError
null, starting from the fresh store whose syncError is null. -/
theorem syncCallback_error_not_captured :
    FileMetadataStore.syncCallback (FileMetadataStore.initial 20)
        (some "boom") (some { numSynced := 5, total := 100 })
      = Except.ok { FileMetadataStore.initial 20 with
          inodesSynced := 5, totalInodesToSync := JsNum.num 100 }
  ∧ ({ FileMetadataStore.initial 20 with
        inodesSynced := 5, totalInodesToSync := JsNum.num 100 }
          : FileMetadataStore).syncError = none := by
  exact ⟨rfl, rfl⟩

/-- C4 amended: a subscription error is only logged; when a state accompanies
the event it is still published through updateSyncProgress, and syncError is
left exactly as it was. -/
theorem syncCallback_keeps_syncError (s : FileMetadataStore)
    (err : Option String) (st : SyncState) :
    FileMetadataStore.syncCallback s err (some st)
      = Except.ok (FileMetadataStore.updateSyncProgress s
          { inodesSynced := st.numSynced, totalInodes := st.total })
  ∧ (FileMetadataStore.updateSyncProgress s
      { inodesSynced := st.numSynced, totalInodes := st.total }).syncError
        = s.syncError :=
  ⟨rfl, rfl⟩

/-- C5: for every page at least 1, search issues the external call with limit
resultsPerPage and offset resultsPerPage times page minus one, offset 0 at
page 1, and on a successful response publishes the data as searchResults, the
total as total, and drops the loading flag. -/
theorem search_valid_page (fresh : Nat) (s : FileMetadataStore)
    (p : SearchParams) (r : QueryResponse) (h : 1 ≤ p.page) :
    (FileMetadataStore.search fresh s p (Except.ok r)).1
      = DbRequest.search p.query s.resultsPerPage
          (s.resultsPerPage * (p.page - 1))
  ∧ (p.page = 1 → s.resultsPerPage * (p.page - 1) = 0)
  ∧ (FileMetadataStore.search fresh s p (Except.ok r)).2.searchResults = r.data
  ∧ (FileMetadataStore.search fresh s p (Except.ok r)).2.total = r.total
  ∧ (FileMetadataStore.search fresh s p (Except.ok r)).2.loadingSearchResults
      = false := by
  refine ⟨?_, ?_, ?_, ?_, ?_⟩
  · cases hdb : s.db <;>
      simp [FileMetadataStore.search, FileMetadataStore.getDb, hdb]
  · intro h1
    simp [h1]
  · cases hdb : s.db <;>
      simp [FileMetadataStore.search, FileMetadataStore.getDb,
        FileMetadataStore.updateSearchResults, hdb]
  · cases hdb : s.db <;>
      simp [FileMetadataStore.search, FileMetadataStore.getDb,
        FileMetadataStore.updateSearchResults, hdb]
  · cases hdb : s.db <;>
      simp [FileMetadataStore.search, FileMetadataStore.getDb,
        FileMetadataStore.updateSearchResults, hdb]

/-- C5 witness: scenario A, resultsPerPage 20 and page 3 issue limit 20 and
offset 40, and the returned page of 57 total matches is published with the
loading flag dropped. -/
theorem search_valid_page_witness :
    (FileMetadataStore.search 0 (FileMetadataStore.initial 20)
        { query := "report", page := 3 }
        (Except.ok { data := [{ cid := "r1" }], total := 57 })).1
      = DbRequest.search "report" 20 40
  ∧ (FileMetadataStore.search 0 (FileMetadataStore.initial 20)
        { query := "report", page := 3 }
        (Except.ok { data := [{ cid := "r1" }], total := 57 })).2.searchResults
      = [{ cid := "r1" }]
  ∧ (FileMetadataStore.search 0 (FileMetadataStore.initial 20)
        { query := "report", page := 3 }
        (Except.ok { data := [{ cid := "r1" }], total := 57 })).2.total = 57
  ∧ (FileMetadataStore.search 0 (FileMetadataStore.initial 20)
        { query := "report", page := 3 }
        (Except.ok { data := [{ cid := "r1" }], total := 57 })).2.loadingSearchResults
      = false := by
  obtain ⟨h1, _, h3, h4, h5⟩ :=
    search_valid_page 0 (FileMetadataStore.initial 20)
      { query := "report", page := 3 }
      { data := [{ cid := "r1" }], total := 57 } (by decide)
  refine ⟨?_, h3, h4, h5⟩
  rw [h1]
  decide

/-- C6 fails on the code: when the external call rejects, search and getLatest
reject with the loading flag still raised; no code path sets it back to
false. -/
theorem query_failure_leaves_loading_true (fresh : Nat)
    (s : FileMetadataStore) (p : SearchParams) (q : GetLatestParams)
    (e : String) :
    (FileMetadataStore.search fresh s p (Except.error e)).2.loadingSearchResults
        = true
  ∧ (FileMetadataStore.getLatest fresh s q (Except.error e)).2.loadingSearchResults
        = true := by
  constructor <;>
    (cases hdb : s.db <;>
      simp [FileMetadataStore.search, FileMetadataStore.getLatest,
        FileMetadataStore.getDb, hdb])

/-- C7 fails on the code: clearing a store whose total is 57 empties the
results and resets the sync counters but keeps total at 57, not 0. -/
theorem clear_keeps_total_counterexample :
    (FileMetadataStore.clear 0 storeWithTotal57).total = 57
  ∧ decide ((FileMetadataStore.clear 0 storeWithTotal57).total = 0) = false
  ∧ (FileMetadataStore.clear 0 storeWithTotal57).searchResults = []
  ∧ (FileMetadataStore.clear 0 storeWithTotal57).inodesSynced = 0
  ∧ (FileMetadataStore.clear 0 storeWithTotal57).totalInodesToSync
      = JsNum.inf := by
  refine ⟨rfl, by decide, rfl, rfl, rfl⟩

/-- C7 amended: after every successful clear, searchResults is empty,
inodesSynced is 0, totalInodesToSync holds the sentinel, and total keeps its
prior value. -/
theorem clear_resets_results_and_sync (fresh : Nat) (s : FileMetadataStore) :
    (FileMetadataStore.clear fresh s).searchResults = []
  ∧ (FileMetadataStore.clear fresh s).inodesSynced = 0
  ∧ (FileMetadataStore.clear fresh s).totalInodesToSync = JsNum.inf
  ∧ (FileMetadataStore.clear fresh s).total = s.total := by
  cases hdb : s.db <;>
    simp [FileMetadataStore.clear, FileMetadataStore.clearResults,
      FileMetadataStore.getDb, hdb]

/-- C8 fails on the code: a progress update carrying 150 synced over a known
total of 100 is published exactly as delivered, unclamped and without raising
an exception, and syncError stays null; the violation is not reported. -/
theorem updateSyncProgress_violation_unreported :
    (FileMetadataStore.updateSyncProgress (FileMetadataStore.initial 20)
        { inodesSynced := 150, totalInodes := 100 }).inodesSynced = 150
  ∧ (FileMetadataStore.updateSyncProgress (FileMetadataStore.initial 20)
        { inodesSynced := 150, totalInodes := 100 }).totalInodesToSync
      = JsNum.num 100
  ∧ (FileMetadataStore.updateSyncProgress (FileMetadataStore.initial 20)
        { inodesSynced := 150, totalInodes := 100 }).syncError = none := by
  exact ⟨rfl, rfl, rfl⟩

/-- C9: across any sequence of getDb steps from any starting state, every
call returns one and the same handle and at most one construction is
performed, so concurrent init calls interleaved on the event loop never
produce two distinct handles. -/
theorem getDb_memoized (s : FileMetadataStore) (fs : List Nat) :
    (∃ h, (runGetDbs s fs).1 = List.replicate fs.length h)
  ∧ (runGetDbs s fs).2.1 ≤ 1 := by
  cases fs with
  | nil => exact ⟨⟨0, rfl⟩, by simp [runGetDbs]⟩
  | cons f rest =>
      cases hdb : s.db with
      | some h =>
          rw [runGetDbs_of_db_some h (f :: rest) s hdb]
          exact ⟨⟨h, rfl⟩, by simp⟩
      | none =>
          have hstep : FileMetadataStore.getDb f s
              = (f, { s with db := some f }) := by
            simp [FileMetadataStore.getDb, hdb]
          have htail := runGetDbs_of_db_some f rest
            { s with db := some f } rfl
          refine ⟨⟨f, ?_⟩, ?_⟩ <;>
            simp [runGetDbs, hstep, htail, hdb, List.replicate_succ]

/-- C10: search and getLatest publish through the same observable fields; a
completed getLatest replaces the searchResults and total left by a prior
completed search with its own response, and a completed search replaces those
left by a prior completed getLatest, with the shared loading flag dropped. -/
theorem search_getLatest_shared_surface (f1 f2 : Nat) (s : FileMetadataStore)
    (p : SearchParams) (q : GetLatestParams) (r1 r2 : QueryResponse) :
    ((FileMetadataStore.getLatest f2
        (FileMetadataStore.search f1 s p (Except.ok r1)).2 q
        (Except.ok r2)).2.searchResults = r2.data
  ∧ (FileMetadataStore.getLatest f2
        (FileMetadataStore.search f1 s p (Except.ok r1)).2 q
        (Except.ok r2)).2.total = r2.total
  ∧ (FileMetadataStore.getLatest f2
        (FileMetadataStore.search f1 s p (Except.ok r1)).2 q
        (Except.ok r2)).2.loadingSearchResults = false)
  ∧ ((FileMetadataStore.search f2
        (FileMetadataStore.getLatest f1 s q (Except.ok r2)).2 p
        (Except.ok r1)).2.searchResults = r1.data
  ∧ (FileMetadataStore.search f2
        (FileMetadataStore.getLatest f1 s q (Except.ok r2)).2 p
        (Except.ok r1)).2.total = r1.total
  ∧ (FileMetadataStore.search f2
        (FileMetadataStore.getLatest f1 s q (Except.ok r2)).2 p
        (Except.ok r1)).2.loadingSearchResults = false) := by
  cases hdb : s.db <;>
    simp [FileMetadataStore.search, FileMetadataStore.getLatest,
      FileMetadataStore.getDb, FileMetadataStore.updateSearchResults, hdb]
